import Mathlib

/-!
Verification of the `acos_config` Ansible module
(`lib/ansible/modules/network/a10/acos_config.py`).

Configuration text and configuration lines are modelled as `List Char`
(`PyStr`), with the Python string operations the module uses (`str.strip`,
`str.startswith('!')`, `str.split('\n')`, `in`) embedded as executable
functions below.  The module's `main` is modelled as a pure function from
the caller-supplied parameters, an oracle giving the device's reply at each
fetch point, the contents of the candidate file (if any), and the check-mode
flag, to the produced Ansible result dictionary plus the ordered trace of
device interactions.
-/

/-- A Python string, modelled as its list of characters. -/
abbrev PyStr := List Char

/-- Whitespace characters removed by Python `str.strip()`. -/
def isSpaceChar (c : Char) : Bool :=
  c = ' ' || c = '\t' || c = '\n' || c = '\r' || c = '\x0b' || c = '\x0c'

/-- Python `s.strip()`: drop leading and trailing whitespace. -/
def py_strip (s : PyStr) : PyStr :=
  ((s.dropWhile isSpaceChar).reverse.dropWhile isSpaceChar).reverse

/-- Python `s.startswith('!')`: true iff the first character is `!`. -/
def starts_with_bang (s : PyStr) : Bool :=
  match s with
  | [] => false
  | c :: _ => c = '!'

/-- Helper for `split_newlines`: accumulates the current (reversed) segment. -/
def split_newlines_aux (cur : PyStr) (rest : PyStr) : List PyStr :=
  match rest with
  | [] => [cur.reverse]
  | c :: cs =>
      if c = '\n' then cur.reverse :: split_newlines_aux [] cs
      else split_newlines_aux (c :: cur) cs

/-- Python `s.split('\n')`: split into segments at newline characters
(the empty string yields `[""]`, like Python). -/
def split_newlines (s : PyStr) : List PyStr :=
  split_newlines_aux [] s

/-- Python `x in l` on a list of strings (exact string equality). -/
def py_in (x : PyStr) (l : List PyStr) : Bool :=
  match l with
  | [] => false
  | y :: ys => if y = x then true else py_in x ys

/-- The built-in ignore literals of `get_diff`
(acos_config.py lines 256-262). -/
def builtin_ignore_list : List PyStr :=
  ["".toList, "!".toList, "exit-module".toList,
   "Show default startup-config".toList,
   "Building configuration...".toList]

/-- Translation of `get_diff` (acos_config.py lines 254-269): collect the
lines of `intended_config`, in order, that do not start with `!`, are not in
`candidate_config`, and are not built-in ignore literals; then, when a
non-empty `diff_ignore_lines` was supplied, drop the lines occurring in it. -/
def get_diff (intended_config candidate_config diff_ignore_lines : List PyStr) :
    List PyStr :=
  let diff := intended_config.filter (fun item =>
    !(starts_with_bang item) && !(py_in item candidate_config)
      && !(py_in item builtin_ignore_list))
  if diff_ignore_lines.isEmpty then diff
  else diff.filter (fun x => !(py_in x diff_ignore_lines))

/-- Translation of `configuration_to_list` (acos_config.py lines 272-278):
split the raw `show` output on newlines and append the stripped form of every
line that does not start (before stripping) with `!`. -/
def configuration_to_list (configuration : PyStr) : List PyStr :=
  (split_newlines configuration).foldl
    (fun sanitized line =>
      if starts_with_bang line then sanitized else sanitized ++ [py_strip line])
    []

/-- Translation of `get_list_from_params` (acos_config.py lines 226-231):
strip each supplied line; a falsy (absent/empty) parameter yields `[]`. -/
def get_list_from_params (command_lines : List PyStr) : List PyStr :=
  if command_lines.isEmpty then [] else command_lines.map py_strip

/-- Translation of `get_intended_config` (acos_config.py lines 218-223):
strip each line of the `intended_config` parameter. -/
def get_intended_config (intended_lines : List PyStr) : List PyStr :=
  intended_lines.map py_strip

/-- Modelled from the spec: `get_candidate_config` (acos_config.py lines
208-215) serializes the explicit `lines` under their `parents` context
through the `NetworkConfig` class of `module_utils`, which is not under
`src/`; per spec section 4.2 the builder produces a flat ordered line list
of the explicit lines under their parent-context labels, preserving order,
and an absent/empty `lines` parameter yields an empty candidate. -/
def get_candidate_config (lines parents : List PyStr) : List PyStr :=
  if lines.isEmpty then [] else parents ++ lines

/-- Modelled from the spec: the `NetworkConfig.sha1` content fingerprint used
by the `save_when=modified` branch (acos_config.py lines 428-433); the class
lives in `module_utils`, not under `src/`.  Per spec section 4.5 it is a
content hash over the normalized configuration with ignored lines removed,
used only for equality, so it is modelled as the normalized line list itself
(hash collisions are ignored). -/
def fingerprint (contents : PyStr) (ignore_lines : List PyStr) : List PyStr :=
  ((split_newlines contents).map py_strip).filter
    (fun line => !(py_in line ignore_lines))

/-- The `save_when` module parameter (choices at acos_config.py line 308). -/
inductive SaveWhen
  | always
  | never
  | modified
  | changed
  deriving DecidableEq, Repr

/-- The module parameters relevant to the reconciliation flow
(argument_spec, acos_config.py lines 288-315).  List-valued parameters use
`[]` for an absent value, matching Python falsiness, since the module only
ever tests them for falsiness; `diff_against` has `startup` as its only
choice and is modelled as a flag. -/
structure Params where
  lines : List PyStr := []
  intended_config : List PyStr := []
  parents : List PyStr := []
  before : List PyStr := []
  after : List PyStr := []
  defaults : Bool := false
  backup : Bool := false
  save_when : SaveWhen := SaveWhen.never
  diff_against_startup : Bool := false
  diff_ignore_lines : List PyStr := []
  file_path : Option PyStr := none
  deriving DecidableEq, Repr

/-- Oracle for the raw text the device returns at each fetch point of one
run of `main`, in program order: the pre-apply `show running-config`
(line 341), the post-apply `show running-config` and `show startup-config`
(lines 389-392), the pair fetched by the `save_when=modified` branch
(lines 425-426), and the end-of-run `show running-config` (line 455). -/
structure Device where
  show_run_before : PyStr
  show_run_post : PyStr
  show_startup_post : PyStr
  show_run_save : PyStr
  show_startup_save : PyStr
  show_run_final : PyStr
  deriving DecidableEq, Repr

/-- The read-only commands issued through `run_commands`/`get_config`. -/
inductive Cmd
  | show_running_config
  | show_startup_config
  | get_config_call
  deriving DecidableEq, Repr

/-- One device interaction, in the vocabulary of the spec's collaborator
contract: a read-only fetch, a single submitted command (file-driven
application), a batch edit (`edit_config`), or the save-to-startup
`write memory` command. -/
inductive Event
  | fetch (cmd : Cmd)
  | submitSingle (line : PyStr)
  | submitBatch (lines : List PyStr)
  | persist
  deriving DecidableEq, Repr

/-- The relevant keys of the Ansible `result` dictionary produced by `main`.
`none` models an absent key; `startup_diff` distinguishes an absent key
(`none`) from a key explicitly set to Python `None` (`some none`). -/
structure ModuleResult where
  changed : Bool
  commands : Option (List PyStr)
  updates : Option (List PyStr)
  drift_warning_issued : Bool
  success : Option Bool
  failed_diff_lines_between_intended_candidate : Option (List PyStr)
  diff_against_found : Option PyStr
  startup_diff : Option (Option (List PyStr))
  deriving DecidableEq, Repr

/-- Outcome of one run of `main`: the ordered device-interaction trace and
the result dictionary (`none` when `fail_json` aborted the run). -/
structure RunOutput where
  trace : List Event
  result : Option ModuleResult
  deriving DecidableEq, Repr

/-- Events of the `file_path` branch (acos_config.py lines 344-355): when a
file path was given, `none` file contents model the `IOError` of the failed
`open` (the run aborts via `fail_json`); otherwise the module enters
configuration mode, submits the stripped form of every file line that does
not start with `!`, one command per call, and exits configuration mode. -/
def apply_file_step (p : Params) (fileContents : Option (List PyStr)) :
    Option (List Event) :=
  match p.file_path with
  | none => some []
  | some _ =>
    match fileContents with
    | none => none
    | some command_lines =>
        some ([Event.submitSingle "configure".toList]
          ++ ((command_lines.filter (fun line => !(starts_with_bang line))).map
                (fun line => Event.submitSingle (py_strip line)))
          ++ [Event.submitSingle "exit".toList])

/-- The command stack built by the `lines` branch (acos_config.py lines
364-376): the serialized candidate with the `before` lines spliced in front
and the `after` lines appended (each splice only happens when the parameter
is truthy, exactly as in the source). -/
def build_commands (p : Params) : List PyStr :=
  let commands := get_candidate_config p.lines p.parents
  let commands := if p.before.isEmpty then commands else p.before ++ commands
  if p.after.isEmpty then commands else commands ++ p.after

/-- The `commands`/`updates` result keys (acos_config.py lines 378-379):
set to the built command stack when `lines` was given and the serialized
candidate is non-empty, absent otherwise. -/
def result_commands (p : Params) : Option (List PyStr) :=
  if p.lines.isEmpty then none
  else if (get_candidate_config p.lines p.parents).isEmpty then none
  else some (build_commands p)

/-- Whether the batch edit of acos_config.py lines 383-386 happened, which
is exactly the condition under which `result['changed']` is set to `True`
there: `lines` truthy, serialized candidate truthy, not check mode, and the
built command stack truthy. -/
def apply_happened (p : Params) (check_mode : Bool) : Bool :=
  !p.lines.isEmpty && !(get_candidate_config p.lines p.parents).isEmpty
    && !check_mode && !(build_commands p).isEmpty

/-- Events of the `lines` branch: a single `edit_config` batch when the
apply actually happened (acos_config.py line 385). -/
def lines_events (p : Params) (check_mode : Bool) : List Event :=
  if apply_happened p check_mode then [Event.submitBatch (build_commands p)]
  else []

/-- The post-apply drift check (acos_config.py lines 394-402): `True` iff
the warning about commands missing from the re-fetched running config was
issued. -/
def drift_warning (p : Params) (dev : Device) : Bool :=
  !(get_diff (get_list_from_params p.lines)
      (configuration_to_list dev.show_run_post)
      (get_list_from_params p.diff_ignore_lines)).isEmpty

/-- The diff computed by the `intended_config` branch (acos_config.py lines
406-408): intended lines (stripped) against the stripped `lines` parameter,
under the stripped ignore list. -/
def intended_found_diff (p : Params) : List PyStr :=
  get_diff (get_intended_config p.intended_config)
    (get_list_from_params p.lines)
    (get_list_from_params p.diff_ignore_lines)

/-- The `success` result key (acos_config.py lines 405-417): absent unless
`intended_config` is truthy; then `False` iff the intended-versus-candidate
diff is non-empty. -/
def result_success (p : Params) : Option Bool :=
  if p.intended_config.isEmpty then none
  else if (intended_found_diff p).isEmpty then some true
  else some false

/-- The `failed_diff_lines_between_intended_candidate` result key
(acos_config.py lines 409-413): present, holding the non-empty
intended-versus-candidate diff, exactly when `success` is set to `False`. -/
def result_failed_diff (p : Params) : Option (List PyStr) :=
  if p.intended_config.isEmpty then none
  else if (intended_found_diff p).isEmpty then none
  else some (intended_found_diff p)

/-- Events of `save_config` (acos_config.py lines 245-251): the
`write memory` command, skipped (with only a warning) in check mode. -/
def save_config_events (check_mode : Bool) : List Event :=
  if check_mode then [] else [Event.persist]

/-- Events of the save-policy block (acos_config.py lines 422-436), given
the value the `changed` result key holds when line 435 reads it: `always`
saves unconditionally; `modified` fetches fresh running and startup text and
saves iff their fingerprints (built over the raw `diff_ignore_lines`
parameter, line 428-431) differ; `changed` saves iff the flag is set;
`never` does nothing. -/
def save_step (p : Params) (dev : Device) (check_mode : Bool)
    (changed_flag : Bool) : List Event :=
  match p.save_when with
  | SaveWhen.always => save_config_events check_mode
  | SaveWhen.modified =>
      [Event.fetch Cmd.show_running_config, Event.fetch Cmd.show_startup_config]
        ++ (if fingerprint dev.show_run_save p.diff_ignore_lines
              = fingerprint dev.show_startup_save p.diff_ignore_lines then []
            else save_config_events check_mode)
  | SaveWhen.changed =>
      if changed_flag then save_config_events check_mode else []
  | SaveWhen.never => []

/-- The startup-versus-running diff of the `diff_against = startup` branch
(acos_config.py lines 439-441). -/
def startup_difference (p : Params) (dev : Device) : List PyStr :=
  get_diff (configuration_to_list dev.show_startup_post)
    (configuration_to_list dev.show_run_post)
    (get_list_from_params p.diff_ignore_lines)

/-- The `diff_against_found` result key (acos_config.py lines 442-453). -/
def result_diff_against_found (p : Params) (dev : Device) : Option PyStr :=
  if p.diff_against_startup then
    if (startup_difference p dev).isEmpty then some "no".toList
    else some "yes".toList
  else none

/-- The `startup_diff` result key (acos_config.py lines 442-453):
`some none` models the key set to Python `None`. -/
def result_startup_diff (p : Params) (dev : Device) :
    Option (Option (List PyStr)) :=
  if p.diff_against_startup then
    if (startup_difference p dev).isEmpty then some none
    else some (some (startup_difference p dev))
  else none

/-- The value of the `changed` result key right after the
`diff_against = startup` block (acos_config.py line 453): the block
overwrites the flag with the emptiness of the startup diff; without the
block the flag still holds the value set by the apply step.  This value is
itself overwritten by the final recomputation at lines 457-461. -/
def changed_after_diff_against (p : Params) (dev : Device)
    (check_mode : Bool) : Bool :=
  if p.diff_against_startup then !(startup_difference p dev).isEmpty
  else apply_happened p check_mode

/-- Translation of `list(set(after) - set(before))` (acos_config.py line
457): the deduplicated elements of `after_list` that are not in
`before_list` (Python's set iteration order is irrelevant: only emptiness is
consumed). -/
def changed_diff (before_list after_list : List PyStr) : List PyStr :=
  after_list.dedup.filter (fun x => !(py_in x before_list))

/-- The final recomputation of the `changed` result key (acos_config.py
lines 455-461): true iff some normalized line of the end-of-run running
snapshot is missing from the pre-apply running snapshot. -/
def final_changed (dev : Device) : Bool :=
  !(changed_diff (configuration_to_list dev.show_run_before)
      (configuration_to_list dev.show_run_final)).isEmpty

/-- The result dictionary at `module.exit_json` (acos_config.py line 463),
assembled from the per-key definitions above. -/
def mkResult (p : Params) (dev : Device) (check_mode : Bool) : ModuleResult where
  changed := final_changed dev
  commands := result_commands p
  updates := result_commands p
  drift_warning_issued := drift_warning p dev
  success := result_success p
  failed_diff_lines_between_intended_candidate := result_failed_diff p
  diff_against_found := result_diff_against_found p dev
  startup_diff := result_startup_diff p dev

/-- The ordered device-interaction trace of a completed run: the pre-apply
fetch (line 341), the file-branch events, the backup fetch (lines 357-362),
the batch edit (line 385), the post-apply fetches (lines 389-392), the
save-policy events (lines 422-436), and the end-of-run fetch (line 455). -/
def mkTrace (p : Params) (dev : Device) (check_mode : Bool)
    (fileEvents : List Event) : List Event :=
  [Event.fetch Cmd.show_running_config]
    ++ fileEvents
    ++ (if p.backup then [Event.fetch Cmd.get_config_call] else [])
    ++ lines_events p check_mode
    ++ [Event.fetch Cmd.show_running_config, Event.fetch Cmd.show_startup_config]
    ++ save_step p dev check_mode (apply_happened p check_mode)
    ++ [Event.fetch Cmd.show_running_config]

/-- The model of `main` (acos_config.py lines 281-463): the pre-apply
snapshot is always fetched; a missing candidate file aborts the run with
only that fetch performed; otherwise the run completes with the trace and
result dictionary assembled above. -/
def runMain (p : Params) (dev : Device) (fileContents : Option (List PyStr))
    (check_mode : Bool) : RunOutput :=
  match apply_file_step p fileContents with
  | none =>
      { trace := [Event.fetch Cmd.show_running_config], result := none }
  | some fileEvents =>
      { trace := mkTrace p dev check_mode fileEvents
        result := some (mkResult p dev check_mode) }

/-! Supporting lemmas about the embedded operations. -/

/-- A list with a member is not empty, in `Bool` form. -/
theorem isEmpty_false_of_ne_nil {α : Type} {l : List α} (h : l ≠ []) :
    l.isEmpty = false := by
  cases l with
  | nil => exact absurd rfl h
  | cons a as => rfl

/-- Membership characterization of the embedded Python `in`. -/
theorem py_in_iff (x : PyStr) (l : List PyStr) : py_in x l = true ↔ x ∈ l := by
  induction l with
  | nil => simp [py_in]
  | cons y ys ih =>
      by_cases h : y = x
      · simp [py_in, h]
      · simp only [py_in, if_neg h, ih, List.mem_cons]
        constructor
        · exact Or.inr
        · rintro (hxy | hm)
          · exact absurd hxy.symm h
          · exact hm

/-- Non-membership characterization of the embedded Python `in`. -/
theorem py_in_eq_false_iff (x : PyStr) (l : List PyStr) :
    py_in x l = false ↔ x ∉ l := by
  rw [← py_in_iff]
  cases py_in x l <;> simp

/-- Characterization of `get_diff` in one pass: exactly the lines of `expected` that do not
start with `!`, are not members of `actual`, are none of the built-in ignore
literals, and are not in the caller-supplied ignore list, in the relative
order of `expected`. -/
theorem get_diff_eq_filter (expected actual ignore : List PyStr) :
    get_diff expected actual ignore =
      expected.filter (fun item =>
        !(starts_with_bang item) && !(py_in item actual)
          && !(py_in item builtin_ignore_list) && !(py_in item ignore)) := by
  simp only [get_diff]
  cases ignore with
  | nil =>
      rw [if_pos (show ([] : List PyStr).isEmpty = true from rfl)]
      apply List.filter_congr
      intro a _
      simp [py_in]
  | cons y ys =>
      rw [if_neg (by simp)]
      rw [List.filter_filter]
      apply List.filter_congr
      intro a _
      exact Bool.and_comm _ _

/-- The `configuration_to_list` fold with an arbitrary accumulator. -/
theorem configuration_to_list_foldl_aux (ls : List PyStr) (acc : List PyStr) :
    ls.foldl
      (fun sanitized line =>
        if starts_with_bang line then sanitized
        else sanitized ++ [py_strip line]) acc
      = acc ++ (ls.filter (fun line => !(starts_with_bang line))).map py_strip := by
  induction ls generalizing acc with
  | nil => simp
  | cons l ls ih =>
      by_cases h : starts_with_bang l
      · simp [List.foldl_cons, h, ih]
      · simp [List.foldl_cons, h, ih]

/-- Characterization of `configuration_to_list`: it keeps, stripped, exactly the raw lines whose
first character (before stripping) is not `!`. -/
theorem configuration_to_list_eq (configuration : PyStr) :
    configuration_to_list configuration =
      ((split_newlines configuration).filter
          (fun line => !(starts_with_bang line))).map py_strip := by
  simp only [configuration_to_list]
  simpa using configuration_to_list_foldl_aux (split_newlines configuration) []

/-- Membership in the embedded `list(set(after) - set(before))`. -/
theorem mem_changed_diff (b a : List PyStr) (x : PyStr) :
    x ∈ changed_diff b a ↔ x ∈ a ∧ x ∉ b := by
  simp [changed_diff, List.mem_filter, List.mem_dedup, py_in_eq_false_iff]

/-- The set difference `after - before` is non-empty iff some element of
`after` is missing from `before`. -/
theorem changed_diff_isEmpty_false_iff (b a : List PyStr) :
    (changed_diff b a).isEmpty = false ↔ ∃ x ∈ a, x ∉ b := by
  rw [Bool.eq_false_iff, Ne, List.isEmpty_iff, List.eq_nil_iff_forall_not_mem]
  push_neg
  simp only [mem_changed_diff]

/-- The final recomputed `changed` flag is true iff some normalized line of
the end-of-run snapshot is missing from the pre-apply snapshot. -/
theorem final_changed_iff (dev : Device) :
    final_changed dev = true ↔
      ∃ x ∈ configuration_to_list dev.show_run_final,
        x ∉ configuration_to_list dev.show_run_before := by
  rw [show final_changed dev =
      !(changed_diff (configuration_to_list dev.show_run_before)
          (configuration_to_list dev.show_run_final)).isEmpty from rfl]
  rw [Bool.not_eq_true']
  exact changed_diff_isEmpty_false_iff _ _

/-- Projection of `runMain` when the file step succeeded. -/
theorem runMain_result_eq (p : Params) (dev : Device) (fc : Option (List PyStr))
    (cm : Bool) (evs : List Event) (h : apply_file_step p fc = some evs) :
    (runMain p dev fc cm).result = some (mkResult p dev cm) := by
  unfold runMain
  rw [h]

/-- Trace of `runMain` when the file step succeeded. -/
theorem runMain_trace_eq (p : Params) (dev : Device) (fc : Option (List PyStr))
    (cm : Bool) (evs : List Event) (h : apply_file_step p fc = some evs) :
    (runMain p dev fc cm).trace = mkTrace p dev cm evs := by
  unfold runMain
  rw [h]

/-- A completed run produced exactly the result dictionary `mkResult`. -/
theorem runMain_result_inv (p : Params) (dev : Device) (fc : Option (List PyStr))
    (cm : Bool) (r : ModuleResult) (h : (runMain p dev fc cm).result = some r) :
    r = mkResult p dev cm := by
  unfold runMain at h
  cases hfs : apply_file_step p fc with
  | none =>
      rw [hfs] at h
      exact Option.noConfusion h
  | some evs =>
      rw [hfs] at h
      exact (Option.some.inj h).symm

/-- A completed run means the file step succeeded. -/
theorem runMain_file_ok (p : Params) (dev : Device) (fc : Option (List PyStr))
    (cm : Bool) (r : ModuleResult) (h : (runMain p dev fc cm).result = some r) :
    ∃ evs, apply_file_step p fc = some evs := by
  cases hfs : apply_file_step p fc with
  | none =>
      unfold runMain at h
      rw [hfs] at h
      exact Option.noConfusion h
  | some evs => exact ⟨evs, rfl⟩

/-- The file-application branch issues only single-command submissions. -/
theorem persist_not_in_file_events (p : Params) (fc : Option (List PyStr))
    (evs : List Event) (h : apply_file_step p fc = some evs) :
    Event.persist ∉ evs := by
  unfold apply_file_step at h
  cases hfp : p.file_path with
  | none =>
      rw [hfp] at h
      cases Option.some.inj h
      simp
  | some path =>
      rw [hfp] at h
      cases fc with
      | none => exact Option.noConfusion h
      | some cl =>
          cases Option.some.inj h
          intro hmem
          simp [List.mem_append, List.mem_map] at hmem

/-- The explicit-lines branch issues only a batch edit. -/
theorem persist_not_in_lines_events (p : Params) (cm : Bool) :
    Event.persist ∉ lines_events p cm := by
  unfold lines_events
  by_cases h : apply_happened p cm = true <;> simp [h]

/-- The `write memory` command occurs in a completed trace exactly when the save-policy
block issued it. -/
theorem persist_in_mkTrace_iff (p : Params) (dev : Device) (cm : Bool)
    (evs : List Event) (hevs : Event.persist ∉ evs) :
    Event.persist ∈ mkTrace p dev cm evs ↔
      Event.persist ∈ save_step p dev cm (apply_happened p cm) := by
  unfold mkTrace
  by_cases hb : p.backup <;>
    simp [List.mem_append, hevs, persist_not_in_lines_events, hb]

/-- Under `save_when = changed`, the save block issues `write memory` iff
the flag is set and check mode is off. -/
theorem persist_in_save_step_changed (p : Params) (dev : Device) (cm : Bool)
    (ch : Bool) (hsw : p.save_when = SaveWhen.changed) :
    Event.persist ∈ save_step p dev cm ch ↔ ch = true ∧ cm = false := by
  unfold save_step
  rw [hsw]
  cases ch <;> cases cm <;> simp [save_config_events]

/-- Under `save_when = modified`, the save block issues `write memory` iff
the two fingerprints differ and check mode is off. -/
theorem persist_in_save_step_modified (p : Params) (dev : Device) (cm : Bool)
    (ch : Bool) (hsw : p.save_when = SaveWhen.modified) :
    Event.persist ∈ save_step p dev cm ch ↔
      fingerprint dev.show_run_save p.diff_ignore_lines ≠
          fingerprint dev.show_startup_save p.diff_ignore_lines ∧ cm = false := by
  unfold save_step
  rw [hsw]
  by_cases hf : fingerprint dev.show_run_save p.diff_ignore_lines
      = fingerprint dev.show_startup_save p.diff_ignore_lines <;>
    cases cm <;> simp [hf, save_config_events]

/-- Events of the explicit-lines branch belong to the completed trace. -/
theorem mem_mkTrace_of_mem_lines_events (p : Params) (dev : Device) (cm : Bool)
    (evs : List Event) (e : Event) (h : e ∈ lines_events p cm) :
    e ∈ mkTrace p dev cm evs := by
  unfold mkTrace
  simp only [List.mem_append]
  tauto

/-! Concrete inputs used by the claim counterexamples and witnesses. -/

/-- A device whose every fetch returns the one-line text `a`. -/
def devTriv : Device where
  show_run_before := "a".toList
  show_run_post := "a".toList
  show_startup_post := "a".toList
  show_run_save := "a".toList
  show_startup_save := "a".toList
  show_run_final := "a".toList

/-- Parameters with every option left at its default. -/
def pDefault : Params where

/-- Device for the C1 counterexample: the line `b` is present before the
run and absent at its end (a pure removal). -/
def devC1 : Device where
  show_run_before := "a\nb".toList
  show_run_post := "a".toList
  show_startup_post := "a".toList
  show_run_save := "a".toList
  show_startup_save := "a".toList
  show_run_final := "a".toList

/-- Device for the C1 amended-claim witness: the line `b` appears during
the run. -/
def devC1w : Device where
  show_run_before := "a".toList
  show_run_post := "a\nb".toList
  show_startup_post := "a".toList
  show_run_save := "a".toList
  show_startup_save := "a".toList
  show_run_final := "a\nb".toList

/-- Claim C1 as stated is false on the code: on a run that only removes the
line `b` (present in the pre-apply snapshot, absent from the end-of-run
snapshot, so the symmetric set difference is non-empty) the module reports
`changed = false`, because line 457 computes only `set(after) - set(before)`. -/
theorem claim_C1_counterexample :
    ((runMain pDefault devC1 none false).result.map ModuleResult.changed
        = some false) ∧
    "b".toList ∈ configuration_to_list devC1.show_run_before ∧
    "b".toList ∉ configuration_to_list devC1.show_run_final := by
  decide

/-- Claim C1 (amended): for every completed run, the final reported
`changed` flag is true iff the one-sided set difference `after - before`
of normalized running-snapshot lines is non-empty, i.e. iff some normalized
line of the end-of-run snapshot is absent from the pre-apply snapshot; it is
independent of line ordering, but a run that only removes lines reports
`changed = false`. -/
theorem claim_C1_changed_flag (p : Params) (dev : Device)
    (fc : Option (List PyStr)) (cm : Bool) (r : ModuleResult)
    (h : (runMain p dev fc cm).result = some r) :
    r.changed = true ↔
      ∃ x ∈ configuration_to_list dev.show_run_final,
        x ∉ configuration_to_list dev.show_run_before := by
  rw [runMain_result_inv p dev fc cm r h]
  exact final_changed_iff dev

/-- Witness for C1 (amended) at a concrete run where the line `b` was
added: the reported `changed` flag is true. -/
theorem claim_C1_changed_flag_witness :
    (mkResult pDefault devC1w false).changed = true :=
  (claim_C1_changed_flag pDefault devC1w none false
      (mkResult pDefault devC1w false) rfl).mpr
    ⟨"b".toList, by decide, by decide⟩

/-- Claim C2: `get_diff` returns exactly the lines of `expected`, in
`expected`'s relative order, that do not start with `!`, are not members of
`actual` (membership, not positional), are none of the five built-in ignore
literals, and are not in the caller-supplied ignore list; consequently an
empty `expected` yields an empty result, an empty `actual` yields `expected`
minus ignored and comment lines, and duplicate lines of `expected` are each
checked independently (a filter neither reorders nor deduplicates). -/
theorem claim_C2_get_diff (expected actual ignore : List PyStr) :
    get_diff expected actual ignore =
      expected.filter (fun item =>
        !(starts_with_bang item) && !(py_in item actual)
          && !(py_in item builtin_ignore_list) && !(py_in item ignore)) ∧
    get_diff [] actual ignore = [] ∧
    get_diff expected [] ignore =
      expected.filter (fun item =>
        !(starts_with_bang item)
          && !(py_in item builtin_ignore_list) && !(py_in item ignore)) := by
  refine ⟨get_diff_eq_filter expected actual ignore, ?_, ?_⟩
  · rw [get_diff_eq_filter]
    rfl
  · rw [get_diff_eq_filter]
    apply List.filter_congr
    intro a _
    simp [py_in]

/-- Claim C3: no member of the ignore set (the built-in literals plus the
caller-supplied `diff_ignore_lines`) ever appears in a `get_diff` result,
regardless of its presence in `expected` or absence from `actual`; and the
ignore match is exact string equality, not substring matching: with ignore
entry `clock set`, the expected line `clock set 00:00` is not excluded. -/
theorem claim_C3_ignore_exclusion :
    (∀ (expected actual ignore : List PyStr) (L : PyStr),
        L ∈ builtin_ignore_list ∨ L ∈ ignore →
          L ∉ get_diff expected actual ignore) ∧
    get_diff ["clock set 00:00".toList] [] ["clock set".toList]
      = ["clock set 00:00".toList] := by
  constructor
  · intro expected actual ignore L hL hmem
    rw [get_diff_eq_filter, List.mem_filter] at hmem
    have hp := hmem.2
    simp only [Bool.and_eq_true, Bool.not_eq_true'] at hp
    rcases hL with hbi | hig
    · exact (py_in_eq_false_iff L builtin_ignore_list).mp hp.1.2 hbi
    · exact (py_in_eq_false_iff L ignore).mp hp.2 hig
  · decide

/-- Witness for C3: the built-in literal `exit-module` is excluded from a
diff result even though it is in `expected` and absent from `actual`. -/
theorem claim_C3_ignore_exclusion_witness :
    "exit-module".toList ∉ get_diff ["exit-module".toList] [] [] :=
  claim_C3_ignore_exclusion.1 ["exit-module".toList] [] []
    "exit-module".toList (Or.inl (by decide))

/-- Parameters for the C4 counterexample and witness: one explicit line and
`save_when = changed`. -/
def pC4 : Params where
  lines := ["a".toList]
  save_when := SaveWhen.changed

/-- Claim C4 as stated is false on the code: with `save_when = changed`, a
run that applies commands but leaves the running-config line set unchanged
(the pre-apply and end-of-run snapshots are identical) still issues
`write memory`, because line 435 reads the flag set by the batch edit at
line 386, not a before/after set comparison (which happens only at lines
457-461, after the save decision). -/
theorem claim_C4_counterexample :
    Event.persist ∈ (runMain pC4 devTriv none false).trace ∧
    configuration_to_list devTriv.show_run_before
      = configuration_to_list devTriv.show_run_final := by
  decide

/-- Claim C4 (amended): with `save_when = changed`, `write memory` is issued
iff the `changed` flag is true at the moment of the save decision, and that
flag is true exactly when a non-empty explicit-lines batch edit was
performed earlier in the run (`lines` truthy, candidate truthy, not check
mode, command stack truthy); the before/after running-config set comparison
is computed only after the save decision, so it does not drive persistence,
and a run whose applied commands leave the running-config line set unchanged
still persists. -/
theorem claim_C4_save_when_changed (p : Params) (dev : Device)
    (fc : Option (List PyStr)) (cm : Bool) (r : ModuleResult)
    (hsw : p.save_when = SaveWhen.changed)
    (h : (runMain p dev fc cm).result = some r) :
    Event.persist ∈ (runMain p dev fc cm).trace ↔
      apply_happened p cm = true := by
  obtain ⟨evs, hevs⟩ := runMain_file_ok p dev fc cm r h
  rw [runMain_trace_eq p dev fc cm evs hevs]
  rw [persist_in_mkTrace_iff p dev cm evs
      (persist_not_in_file_events p fc evs hevs)]
  rw [persist_in_save_step_changed p dev cm _ hsw]
  constructor
  · exact fun hh => hh.1
  · intro h1
    refine ⟨h1, ?_⟩
    cases cm with
    | false => rfl
    | true => simp [apply_happened] at h1

/-- Witness for C4 (amended): with one explicit line, `save_when = changed`
and check mode off, `write memory` appears in the trace. -/
theorem claim_C4_save_when_changed_witness :
    Event.persist ∈ (runMain pC4 devTriv none false).trace :=
  (claim_C4_save_when_changed pC4 devTriv none false
      (mkResult pC4 devTriv false) rfl rfl).mpr (by decide)

/-- Parameters for the C5 witness: a file path pointing at a file that
cannot be read. -/
def pC5 : Params where
  file_path := some "/tmp/missing.txt".toList

/-- Claim C5: when a `file_path` is given and the file cannot be opened, the
run aborts with the fatal file-not-found failure (`fail_json`, modelled as
an absent result), and at that point the only device interaction is the
read-only pre-apply `show running-config` fetch: no `submitSingle`,
`submitBatch` or `write memory` call was made. -/
theorem claim_C5_missing_file (p : Params) (dev : Device) (cm : Bool)
    (path : PyStr) (hfp : p.file_path = some path) :
    (runMain p dev none cm).result = none ∧
    (runMain p dev none cm).trace = [Event.fetch Cmd.show_running_config] := by
  unfold runMain apply_file_step
  rw [hfp]
  exact ⟨rfl, rfl⟩

/-- Witness for C5 at a concrete missing file: the run fails and its trace
is the single pre-apply fetch. -/
theorem claim_C5_missing_file_witness :
    (runMain pC5 devTriv none false).result = none ∧
    (runMain pC5 devTriv none false).trace
      = [Event.fetch Cmd.show_running_config] :=
  claim_C5_missing_file pC5 devTriv false "/tmp/missing.txt".toList rfl

/-- Parameters for the C6 witness: `save_when = modified`. -/
def pC6 : Params where
  save_when := SaveWhen.modified

/-- Device for the C6 witness: the fresh running and startup texts fetched
by the save block differ. -/
def devC6 : Device where
  show_run_before := "a".toList
  show_run_post := "a".toList
  show_startup_post := "a".toList
  show_run_save := "a".toList
  show_startup_save := "b".toList
  show_run_final := "a".toList

/-- Claim C6: with `save_when = modified` (and check mode off), the save
block fetches fresh running-config and startup-config text — both fetch
commands appear in the trace — and issues `write memory` iff the two
content fingerprints (computed with ignored lines removed) differ; when the
fingerprints are equal, `write memory` is never issued. -/
theorem claim_C6_save_when_modified (p : Params) (dev : Device)
    (fc : Option (List PyStr)) (r : ModuleResult)
    (hsw : p.save_when = SaveWhen.modified)
    (h : (runMain p dev fc false).result = some r) :
    (Event.persist ∈ (runMain p dev fc false).trace ↔
        fingerprint dev.show_run_save p.diff_ignore_lines ≠
          fingerprint dev.show_startup_save p.diff_ignore_lines) ∧
    Event.fetch Cmd.show_running_config ∈ (runMain p dev fc false).trace ∧
    Event.fetch Cmd.show_startup_config ∈ (runMain p dev fc false).trace := by
  obtain ⟨evs, hevs⟩ := runMain_file_ok p dev fc false r h
  rw [runMain_trace_eq p dev fc false evs hevs]
  refine ⟨?_, ?_, ?_⟩
  · rw [persist_in_mkTrace_iff p dev false evs
        (persist_not_in_file_events p fc evs hevs)]
    rw [persist_in_save_step_modified p dev false _ hsw]
    constructor
    · exact fun hh => hh.1
    · exact fun h1 => ⟨h1, rfl⟩
  · simp [mkTrace, List.mem_append]
  · unfold mkTrace save_step
    rw [hsw]
    simp [List.mem_append]

/-- Witness for C6 at a concrete run whose fresh running and startup texts
differ: `write memory` appears in the trace. -/
theorem claim_C6_save_when_modified_witness :
    Event.persist ∈ (runMain pC6 devC6 none false).trace :=
  ((claim_C6_save_when_modified pC6 devC6 none
      (mkResult pC6 devC6 false) rfl rfl).1).mpr (by decide)

/-- Parameters for the C7 witness: `diff_against = startup`. -/
def pC7 : Params where
  diff_against_startup := true

/-- Device for the C7 witness: the startup snapshot holds a line `x` that
the running snapshot lacks, and the final snapshot adds nothing. -/
def devC7 : Device where
  show_run_before := "a".toList
  show_run_post := "a".toList
  show_startup_post := "x".toList
  show_run_save := "a".toList
  show_startup_save := "a".toList
  show_run_final := "a".toList

/-- Claim C7: when `diff_against = startup` is requested, the module
computes `get_diff(expected = startup lines, actual = running lines,
ignore)`; a non-empty result sets `diff_against_found = yes`, stores the
diff payload in `startup_diff`, and writes `changed = true` at that step,
while an empty result sets `diff_against_found = no`, `startup_diff = None`
and `changed = false` at that step; in either case the reported `changed`
flag is subsequently recomputed from the fresh before/after running-config
set comparison and overrides the value written by this step (last writer
wins). -/
theorem claim_C7_diff_against_startup (p : Params) (dev : Device)
    (fc : Option (List PyStr)) (cm : Bool) (r : ModuleResult)
    (hda : p.diff_against_startup = true)
    (h : (runMain p dev fc cm).result = some r) :
    (startup_difference p dev ≠ [] →
        r.diff_against_found = some "yes".toList ∧
        r.startup_diff = some (some (startup_difference p dev)) ∧
        changed_after_diff_against p dev cm = true) ∧
    (startup_difference p dev = [] →
        r.diff_against_found = some "no".toList ∧
        r.startup_diff = some none ∧
        changed_after_diff_against p dev cm = false) ∧
    r.changed = final_changed dev := by
  have hr := runMain_result_inv p dev fc cm r h
  subst hr
  refine ⟨?_, ?_, rfl⟩
  · intro hne
    simp [mkResult, result_diff_against_found, result_startup_diff,
          changed_after_diff_against, hda, isEmpty_false_of_ne_nil hne, hne]
  · intro heq
    simp [mkResult, result_diff_against_found, result_startup_diff,
          changed_after_diff_against, hda, heq]

/-- Witness for C7 at a concrete run with a non-empty startup diff: the
result reports `diff_against_found = yes` with the diff payload, and the
final `changed` flag equals the fresh set-comparison value (false here,
overriding the `true` written by the startup-diff step). -/
theorem claim_C7_diff_against_startup_witness :
    (mkResult pC7 devC7 false).diff_against_found = some "yes".toList ∧
    (mkResult pC7 devC7 false).changed = false := by
  have hmain := claim_C7_diff_against_startup pC7 devC7 none false
      (mkResult pC7 devC7 false) rfl rfl
  exact ⟨(hmain.1 (by decide)).1, hmain.2.2.trans (by decide)⟩

/-- Parameters for the C8 witness (spec scenario E): intended lines `a`, `b`
with submitted candidate line `a`. -/
def pC8 : Params where
  lines := ["a".toList]
  intended_config := ["a".toList, "b".toList]

/-- Claim C8: when `intended_config` is supplied (truthy), the outcome
reports `success = false` together with the intended lines missing from the
candidate exactly when `get_diff(expected = intended lines, actual =
candidate lines, ignore)` is non-empty, and reports `success = true` (with
no mismatch key) when that diff is empty; the mismatch is reported in the
result of a completed run, not a fatal failure. -/
theorem claim_C8_intended_config (p : Params) (dev : Device)
    (fc : Option (List PyStr)) (cm : Bool) (r : ModuleResult)
    (hic : p.intended_config ≠ [])
    (h : (runMain p dev fc cm).result = some r) :
    (intended_found_diff p ≠ [] →
        r.success = some false ∧
        r.failed_diff_lines_between_intended_candidate
          = some (intended_found_diff p)) ∧
    (intended_found_diff p = [] →
        r.success = some true ∧
        r.failed_diff_lines_between_intended_candidate = none) := by
  have hr := runMain_result_inv p dev fc cm r h
  subst hr
  constructor
  · intro hne
    simp [mkResult, result_success, result_failed_diff,
          isEmpty_false_of_ne_nil hic, isEmpty_false_of_ne_nil hne]
  · intro heq
    simp [mkResult, result_success, result_failed_diff,
          isEmpty_false_of_ne_nil hic, heq]

/-- Witness for C8 at spec scenario E (`intended = [a, b]`, candidate
`= [a]`): the result reports `success = false` and mismatch list `[b]`. -/
theorem claim_C8_intended_config_witness :
    (mkResult pC8 devTriv false).success = some false ∧
    (mkResult pC8 devTriv false).failed_diff_lines_between_intended_candidate
      = some ["b".toList] := by
  have hmain := (claim_C8_intended_config pC8 devTriv none false
      (mkResult pC8 devTriv false) (by decide) rfl).1 (by decide)
  exact ⟨hmain.1, hmain.2.trans (by decide)⟩

/-- Parameters for the C9 witness: one explicit line with non-empty
`before` and `after` blocks. -/
def pC9 : Params where
  lines := ["a".toList]
  before := ["b".toList]
  after := ["c".toList]

/-- Claim C9: for any truthy explicit `lines` and any non-empty `before`
and `after`, the reported command stack — and, outside check mode, the batch
submitted to the device — equals `before ++ candidate ++ after` exactly,
where `candidate` is the serialized explicit-lines candidate: `before` lines
precede, `after` lines follow, and the explicit lines are never reordered. -/
theorem claim_C9_order_preservation (p : Params) (dev : Device)
    (fc : Option (List PyStr)) (r : ModuleResult)
    (hl : p.lines ≠ []) (hb : p.before ≠ []) (ha : p.after ≠ [])
    (h : (runMain p dev fc false).result = some r) :
    r.commands
      = some (p.before ++ get_candidate_config p.lines p.parents ++ p.after) ∧
    Event.submitBatch
        (p.before ++ get_candidate_config p.lines p.parents ++ p.after)
      ∈ (runMain p dev fc false).trace := by
  have hcand : get_candidate_config p.lines p.parents ≠ [] := by
    unfold get_candidate_config
    rw [isEmpty_false_of_ne_nil hl]
    simp [hl]
  have hbc : build_commands p
      = p.before ++ get_candidate_config p.lines p.parents ++ p.after := by
    unfold build_commands
    rw [isEmpty_false_of_ne_nil hb, isEmpty_false_of_ne_nil ha]
    simp
  have hbuild : build_commands p ≠ [] := by
    rw [hbc]
    simp [hb]
  have happ : apply_happened p false = true := by
    unfold apply_happened
    rw [isEmpty_false_of_ne_nil hl, isEmpty_false_of_ne_nil hcand,
        isEmpty_false_of_ne_nil hbuild]
    rfl
  obtain ⟨evs, hevs⟩ := runMain_file_ok p dev fc false r h
  have hr := runMain_result_inv p dev fc false r h
  subst hr
  constructor
  · show result_commands p = _
    unfold result_commands
    rw [if_neg (by simp [hl]), if_neg (by simp [hcand]), hbc]
  · rw [runMain_trace_eq p dev fc false evs hevs, ← hbc]
    apply mem_mkTrace_of_mem_lines_events p dev false evs
    unfold lines_events
    rw [happ]
    simp

/-- Witness for C9 at `lines = [a]`, `before = [b]`, `after = [c]`: the
reported command stack is exactly `[b, a, c]`. -/
theorem claim_C9_order_preservation_witness :
    (mkResult pC9 devTriv false).commands
      = some ["b".toList, "a".toList, "c".toList] := by
  have hmain := claim_C9_order_preservation pC9 devTriv none
      (mkResult pC9 devTriv false) (by decide) (by decide) (by decide) rfl
  exact hmain.1.trans (by decide)

/-- Device for C10: the raw end-of-run snapshot holds a line consisting of
leading whitespace followed by `!`. -/
def devC10 : Device where
  show_run_before := "b".toList
  show_run_post := "b".toList
  show_startup_post := "b".toList
  show_run_save := "b".toList
  show_startup_save := "b".toList
  show_run_final := "  !a\nb".toList

/-- Claim C10: the normalizer `configuration_to_list` excludes a raw line
only when its very first character, before any stripping, is `!`; a raw
line of whitespace followed by `!a` is kept and appears stripped as `!a`,
a line that starts with `!`; such a line participates in the before/after
changed-set comparison (`final_changed` is true on a device whose end-of-run
snapshot gained only the raw line `  !a`), even though `get_diff` itself
skips lines starting with `!`. -/
theorem claim_C10_normalizer :
    (∀ configuration : PyStr,
        configuration_to_list configuration =
          ((split_newlines configuration).filter
              (fun line => !(starts_with_bang line))).map py_strip) ∧
    configuration_to_list "  !a\nb".toList = ["!a".toList, "b".toList] ∧
    starts_with_bang "  !a".toList = false ∧
    starts_with_bang "!a".toList = true ∧
    final_changed devC10 = true ∧
    get_diff ["!a".toList] [] [] = [] := by
  refine ⟨configuration_to_list_eq, by decide, by decide, by decide,
    by decide, by decide⟩
